import Mathlib

/-!
Shallow embedding of the ContestHub server's contest-lifecycle routes
(src/index.js and the near-identical snapshots under src/unnamed/), and
proofs about the role-gated lifecycle state machine: contest creation with
quota, admin status setting, participant registration, task submission,
winner declaration, and the two contest-update paths.

Modelling conventions, read off the JavaScript source:
  * A Mongo document id is modelled as a `Nat`; `ObjectId.isValid` is
    modelled as always true (every `Nat` is a well-formed id).
  * An HTTP error response `res.status(n).send({message})` is `ErrResp n message`;
    a handler is a function returning `Except ErrResp Store`: `.error` means the
    handler returned an error response without writing, `.ok s` means it wrote
    the store `s` and responded with success.
  * `verifyJWT` is modelled by passing the decoded `Caller` (email, role)
    directly; `verifyCreator` / `verifyAdmin` are the leading role tests.
  * Timestamps (`new Date()`) are `Nat` milliseconds passed in as `now`.
  * A submission's optional `status: "winner"` field is `Option String`.
-/

deriving instance DecidableEq for Except

namespace ContestHub

/-- An HTTP error response: status code and `{message}` body. -/
structure ErrResp where
  status : Nat
  message : String
  deriving DecidableEq

/-- The decoded bearer token payload `{email, role}` attached as `req.user`. -/
structure Caller where
  email : String
  role : String
  deriving DecidableEq

/-- A user document; only the fields the contest routes read are modelled.
`contestLimit` is `none` when the document lacks the field. -/
structure User where
  email : String
  role : String
  contestLimit : Option Nat := none
  deriving DecidableEq

/-- An embedded submission document, as built by `POST /contests/:id/submit-task`:
`{ userEmail, submission, submittedAt }`; `status` is set to `"winner"` only by
the declare-winner route. -/
structure Submission where
  userEmail : String
  submission : String
  submittedAt : Nat
  status : Option String := none
  deriving DecidableEq

/-- A contest document with the fields the routes read and write. -/
structure Contest where
  title : String := ""
  description : String := ""
  image : String := ""
  price : Nat := 0
  prizeMoney : Nat := 0
  taskInstruction : String := ""
  category : String := ""
  creatorEmail : String
  status : String
  endDate : Nat := 0
  isActive : Option Bool := none
  participants : List String := []
  submissions : List Submission := []
  createdAt : Nat := 0
  deriving DecidableEq

/-- The document store: the `users` and `contests` collections. Contests are
keyed by their generated id. `nextId` is the next id `insertOne` will assign. -/
structure Store where
  users : List User := []
  contests : List (Nat × Contest) := []
  nextId : Nat := 0
  deriving DecidableEq

/-- `contestsCollection.findOne({_id})`. -/
def findContest (s : Store) (id : Nat) : Option Contest :=
  (s.contests.find? (fun p => p.1 == id)).map Prod.snd

/-- `contestsCollection.updateOne({_id}, {$set: ...})` rewriting the whole
contest document keyed `id` to `c`. -/
def setContest (s : Store) (id : Nat) (c : Contest) : Store :=
  { s with contests := s.contests.map (fun p => if p.1 == id then (id, c) else p) }

/-- `contest.submissions.some(s => s.status === "winner")`. -/
def hasWinner (c : Contest) : Bool :=
  c.submissions.any (fun sb => sb.status == some "winner")

/-- Number of submissions of a contest flagged `winner`. -/
def winnersCount (c : Contest) : Nat :=
  (c.submissions.filter (fun sb => sb.status == some "winner")).length

/-- `contest.submissions.map(s => s.userEmail === userEmail ? {...s, status: "winner"} : s)`. -/
def winnerFlag (target : String) (l : List Submission) : List Submission :=
  l.map (fun sb => if sb.userEmail = target then { sb with status := some "winner" } else sb)

/-- `POST /contests/:id/register` (verifyJWT only; no role gate). -/
def register (s : Store) (caller : Caller) (id : Nat) : Except ErrResp Store :=
  match findContest s id with
  | none => .error ⟨404, "Contest not found"⟩
  | some c =>
    if c.participants.contains caller.email then
      .error ⟨400, "Already registered"⟩
    else
      .ok (setContest s id { c with participants := c.participants ++ [caller.email] })

/-- `POST /contests/:id/submit-task` (verifyJWT only). The JS reads
`req.body.submission` and rejects a falsy value; an absent or empty payload is
modelled as the empty string. `$push` appends one submission. -/
def submitTask (s : Store) (caller : Caller) (id : Nat) (payload : String)
    (now : Nat) : Except ErrResp Store :=
  if payload = "" then .error ⟨400, "Submission cannot be empty"⟩
  else
    match findContest s id with
    | none => .error ⟨404, "Contest not found"⟩
    | some c =>
      if c.participants.contains caller.email then
        .ok (setContest s id
          { c with submissions :=
              c.submissions ++ [{ userEmail := caller.email, submission := payload,
                                  submittedAt := now }] })
      else .error ⟨400, "You are not registered for this contest"⟩

/-- `PUT /contests/:id/declare-winner` (verifyJWT, verifyCreator). Note the
source performs no ownership check: `contest.creatorEmail` is never compared
with `req.user.email` on this route. -/
def declareWinner (s : Store) (caller : Caller) (id : Nat)
    (targetEmail : String) : Except ErrResp Store :=
  if caller.role ≠ "creator" then .error ⟨403, "Creator only"⟩
  else
    match findContest s id with
    | none => .error ⟨404, "Contest not found"⟩
    | some c =>
      if hasWinner c then .error ⟨400, "Winner already declared"⟩
      else .ok (setContest s id { c with submissions := winnerFlag targetEmail c.submissions })

/-- `PUT /contests/status/:id` (verifyJWT, verifyAdmin).
`findOneAndUpdate` on an absent id matches nothing and the route still
responds with success (sending `null`). -/
def setStatus (s : Store) (caller : Caller) (id : Nat) (st : String) :
    Except ErrResp Store :=
  if caller.role ≠ "admin" then .error ⟨403, "Admin only"⟩
  else if ¬ (["confirmed", "rejected"].contains st) then
    .error ⟨400, "Invalid status"⟩
  else
    match findContest s id with
    | none => .ok s
    | some c => .ok (setContest s id { c with status := st })

/-- A selective contest update: `req.body` restricted to the allow-listed
fields; `none` models an `undefined` field. The full-edit route's `$set: req.body`
is modelled with the same record (the claims only exercise its error path). -/
structure ContestUpdate where
  title : Option String := none
  description : Option String := none
  image : Option String := none
  price : Option Nat := none
  prizeMoney : Option Nat := none
  taskInstruction : Option String := none
  category : Option String := none
  endDate : Option Nat := none
  isActive : Option Bool := none
  deriving DecidableEq

/-- `$set` of every supplied field: `if (req.body[field] !== undefined)
updateFields[field] = req.body[field]`. -/
def applyUpdate (c : Contest) (u : ContestUpdate) : Contest :=
  { c with
    title := u.title.getD c.title
    description := u.description.getD c.description
    image := u.image.getD c.image
    price := u.price.getD c.price
    prizeMoney := u.prizeMoney.getD c.prizeMoney
    taskInstruction := u.taskInstruction.getD c.taskInstruction
    category := u.category.getD c.category
    endDate := u.endDate.getD c.endDate
    isActive := match u.isActive with | some b => some b | none => c.isActive }

/-- `PUT /contests/edit/:id` (verifyJWT, verifyCreator): full edit, permitted
only to the owner and only while the contest is `pending`. -/
def editContest (s : Store) (caller : Caller) (id : Nat) (body : ContestUpdate) :
    Except ErrResp Store :=
  if caller.role ≠ "creator" then .error ⟨403, "Creator only"⟩
  else
    match findContest s id with
    | none => .error ⟨404, "Contest not found"⟩
    | some c =>
      if c.creatorEmail ≠ caller.email ∨ c.status ≠ "pending" then
        .error ⟨403, "Not allowed"⟩
      else .ok (setContest s id (applyUpdate c body))

/-- `PUT /contests/:id` (verifyJWT, verifyCreator): allow-listed selective
update, owner only, no status restriction. -/
def updateContest (s : Store) (caller : Caller) (id : Nat) (body : ContestUpdate) :
    Except ErrResp Store :=
  if caller.role ≠ "creator" then .error ⟨403, "Creator only"⟩
  else
    match findContest s id with
    | none => .error ⟨404, "Contest not found"⟩
    | some c =>
      if c.creatorEmail ≠ caller.email then .error ⟨403, "Not authorized"⟩
      else .ok (setContest s id (applyUpdate c body))

/-- The payload of `POST /contests` before the server adds its fields. -/
structure NewContest where
  title : String := ""
  description : String := ""
  image : String := ""
  price : Nat := 0
  prizeMoney : Nat := 0
  taskInstruction : String := ""
  category : String := ""
  endDate : Option Nat := none
  deriving DecidableEq

/-- `user.contestLimit || 2`: a missing (or zero) limit falls back to 2. -/
def effectiveLimit (u : User) : Nat :=
  match u.contestLimit with
  | some n => if n = 0 then 2 else n
  | none => 2

/-- `contestsCollection.countDocuments({creatorEmail})`. -/
def ownedCount (s : Store) (e : String) : Nat :=
  (s.contests.filter (fun p => p.2.creatorEmail == e)).length

/-- The quota error message, with the numeric limit interpolated. -/
def quotaMessage (limit : Nat) : String :=
  "Contest limit reached (" ++ toString limit ++ "). Please upgrade your package."

/-- `POST /contests` (verifyJWT, verifyCreator). A missing user document makes
the JS throw reading `user.contestLimit`, caught as a 500. -/
def createContest (s : Store) (caller : Caller) (body : NewContest) (now : Nat) :
    Except ErrResp Store :=
  if caller.role ≠ "creator" then .error ⟨403, "Creator only"⟩
  else
    match s.users.find? (fun u => u.email == caller.email) with
    | none => .error ⟨500, "Cannot read properties of null"⟩
    | some u =>
      let count := ownedCount s caller.email
      let limit := effectiveLimit u
      if count ≥ limit then .error ⟨403, quotaMessage limit⟩
      else
        .ok { s with
          contests := s.contests ++ [(s.nextId,
            { title := body.title, description := body.description,
              image := body.image, price := body.price,
              prizeMoney := body.prizeMoney,
              taskInstruction := body.taskInstruction, category := body.category,
              creatorEmail := caller.email, status := "pending",
              endDate := body.endDate.getD (now + 3 * 24 * 60 * 60 * 1000),
              participants := [], submissions := [], createdAt := now })],
          nextId := s.nextId + 1 }

/-! Concrete fixtures used by the counterexamples and witnesses below. -/

/-- A submission by alice. -/
def subAlice1 : Submission :=
  { userEmail := "alice@x.com", submission := "entry one", submittedAt := 1 }

/-- A second submission by the same user alice. -/
def subAlice2 : Submission :=
  { userEmail := "alice@x.com", submission := "entry two", submittedAt := 2 }

/-- A submission by bob. -/
def subBob : Submission :=
  { userEmail := "bob@x.com", submission := "bob entry", submittedAt := 3 }

/-- The creator who owns the fixture contests. -/
def ownerCaller : Caller := { email := "owner@x.com", role := "creator" }

/-- A creator who owns none of the fixture contests. -/
def intruderCaller : Caller := { email := "intruder@x.com", role := "creator" }

/-- An admin caller. -/
def adminCaller : Caller := { email := "root@x.com", role := "admin" }

/-- A contest in which alice authored two submissions. -/
def c1contest : Contest :=
  { creatorEmail := "owner@x.com", status := "confirmed",
    participants := ["alice@x.com"], submissions := [subAlice1, subAlice2] }

/-- Store holding only `c1contest` under id 1. -/
def c1store : Store := { contests := [(1, c1contest)], nextId := 2 }

/-- `c1contest` after declaring alice the winner: both her submissions flagged. -/
def c1after : Contest :=
  { c1contest with submissions := winnerFlag "alice@x.com" c1contest.submissions }

/-- A contest owned by `owner@x.com` with a single submission by bob. -/
def c2contest : Contest :=
  { creatorEmail := "owner@x.com", status := "confirmed",
    participants := ["bob@x.com"], submissions := [subBob] }

/-- Store holding only `c2contest` under id 1. -/
def c2store : Store := { contests := [(1, c2contest)], nextId := 2 }

/-- `c2store` after bob's submission is flagged winner. -/
def c2after : Store :=
  setContest c2store 1
    { c2contest with submissions := [{ subBob with status := some "winner" }] }

/-- A contest an admin has already confirmed. -/
def c3contest : Contest :=
  { creatorEmail := "owner@x.com", status := "confirmed",
    participants := [], submissions := [] }

/-- Store holding only `c3contest` under id 1. -/
def c3store : Store := { contests := [(1, c3contest)], nextId := 2 }

/-- A contest with one submission, authored by alice. -/
def c4contest : Contest :=
  { creatorEmail := "owner@x.com", status := "confirmed",
    participants := ["alice@x.com"], submissions := [subAlice1] }

/-- Store holding only `c4contest` under id 1. -/
def c4store : Store := { contests := [(1, c4contest)], nextId := 2 }

/-- `c4store` after alice's submission is flagged winner. -/
def c4won : Store :=
  setContest c4store 1
    { c4contest with submissions := winnerFlag "alice@x.com" c4contest.submissions }

/-- A creator identity for the quota fixtures. -/
def c5creator : Caller := { email := "maker@x.com", role := "creator" }

/-- The user document behind `c5creator`; no `contestLimit` field, so the
effective limit is the default 2. -/
def c5user : User := { email := "maker@x.com", role := "creator" }

/-- First contest owned by `maker@x.com`. -/
def c5c1 : Contest := { creatorEmail := "maker@x.com", status := "pending" }

/-- Second contest owned by `maker@x.com`. -/
def c5c2 : Contest := { creatorEmail := "maker@x.com", status := "confirmed" }

/-- Store where `maker@x.com` already owns 2 contests (at the default quota). -/
def c5full : Store :=
  { users := [c5user], contests := [(1, c5c1), (2, c5c2)], nextId := 3 }

/-- Store where `maker@x.com` owns 1 contest (below the default quota). -/
def c5room : Store := { users := [c5user], contests := [(1, c5c1)], nextId := 2 }

/-- A rejected contest whose end date has long passed, with bob registered. -/
def c9contest : Contest :=
  { creatorEmail := "owner@x.com", status := "rejected", endDate := 1,
    participants := ["bob@x.com"], submissions := [] }

/-- Store holding only `c9contest` under id 1. -/
def c9store : Store := { contests := [(1, c9contest)], nextId := 2 }

/-- A confirmed contest with an old title, for the two update paths. -/
def c8contest : Contest :=
  { title := "Old title", creatorEmail := "owner@x.com", status := "confirmed",
    participants := [], submissions := [] }

/-- Store holding only `c8contest` under id 1. -/
def c8store : Store := { contests := [(1, c8contest)], nextId := 2 }

/-- An allow-listed update writing only the title. -/
def c8upd : ContestUpdate := { title := some "New title" }

/-! General lemmas about the store and the winner-flagging map. -/

/-- Rewriting the contest stored under a present key makes lookup return the
new document. List-level form. -/
theorem find?_map_set (l : List (Nat × Contest)) (id : Nat) (c c' : Contest)
    (h : (l.find? (fun p => p.1 == id)).map Prod.snd = some c) :
    ((l.map (fun p => if p.1 == id then (id, c') else p)).find?
        (fun p => p.1 == id)).map Prod.snd = some c' := by
  induction l with
  | nil => simp at h
  | cons hd tl ih =>
    by_cases hh : hd.1 = id
    · simp [List.find?_cons, hh]
    · have hb : (hd.1 == id) = false := by simp [hh]
      simp only [List.find?_cons, hb] at h
      simp only [List.map_cons, hb, Bool.false_eq_true, if_false, List.find?_cons]
      exact ih h

/-- Rewriting a contest that `findContest` can see makes `findContest` return
the new document. -/
theorem findContest_setContest {s : Store} {id : Nat} {c : Contest} (c' : Contest)
    (h : findContest s id = some c) :
    findContest (setContest s id c') id = some c' := by
  unfold findContest setContest at *
  exact find?_map_set s.contests id c c' h

/-- `hasWinner` is false exactly when no submission carries the winner flag. -/
theorem hasWinner_false_iff (c : Contest) :
    hasWinner c = false ↔ ∀ sb ∈ c.submissions, sb.status ≠ some "winner" := by
  simp [hasWinner]

/-- When no submission matches the target email, `winnerFlag` is the identity. -/
theorem winnerFlag_nomatch (t : String) (l : List Submission)
    (h : (l.any (fun sb => sb.userEmail == t)) = false) :
    winnerFlag t l = l := by
  induction l with
  | nil => rfl
  | cons hd tl ih =>
    simp only [List.any_cons, Bool.or_eq_false_iff] at h
    have hne : hd.userEmail ≠ t := by
      intro hh; simp [hh] at h
    simp only [winnerFlag, List.map_cons, if_neg hne]
    have := ih h.2
    simp only [winnerFlag] at this
    rw [this]

/-- When some submission matches the target email, `winnerFlag` leaves at least
one winner-flagged submission. -/
theorem winnerFlag_hasWinner (t : String) (l : List Submission)
    (h : (l.any (fun sb => sb.userEmail == t)) = true) :
    ((winnerFlag t l).any (fun sb => sb.status == some "winner")) = true := by
  induction l with
  | nil => simp at h
  | cons hd tl ih =>
    simp only [List.any_cons, Bool.or_eq_true] at h
    by_cases hh : hd.userEmail = t
    · simp [winnerFlag, hh]
    · simp only [winnerFlag, List.map_cons, if_neg hh, List.any_cons]
      rcases h with h | h
      · exact absurd (by simpa using h) hh
      · simp only [winnerFlag] at ih
        rw [ih h]
        simp

/-- Starting from a contest with no winner, every submission flagged by
`winnerFlag` belongs to the target email. -/
theorem winnerFlag_mem_target (t : String) (l : List Submission)
    (hno : ∀ sb ∈ l, sb.status ≠ some "winner") :
    ∀ sb ∈ winnerFlag t l, sb.status = some "winner" → sb.userEmail = t := by
  intro sb hmem hst
  rcases List.mem_map.mp hmem with ⟨a, ha, rfl⟩
  by_cases hh : a.userEmail = t
  · simp [if_pos hh, hh]
  · simp only [if_neg hh] at hst ⊢
    exact absurd hst (hno a ha)

/-- Starting from a contest with no winner, `winnerFlag` flags exactly as many
submissions as the target authored. -/
theorem winnerFlag_count (t : String) (l : List Submission)
    (hno : ∀ sb ∈ l, sb.status ≠ some "winner") :
    ((winnerFlag t l).filter (fun sb => sb.status == some "winner")).length =
      (l.filter (fun sb => sb.userEmail == t)).length := by
  induction l with
  | nil => rfl
  | cons hd tl ih =>
    have hhd := hno hd (by simp)
    have htl : ∀ sb ∈ tl, sb.status ≠ some "winner" := fun sb h => hno sb (by simp [h])
    by_cases hh : hd.userEmail = t
    · simp only [winnerFlag, List.map_cons, if_pos hh, List.filter_cons]
      simp only [winnerFlag] at ih
      simp [hh, ih htl]
    · simp only [winnerFlag, List.map_cons, if_neg hh, List.filter_cons]
      simp only [winnerFlag] at ih
      have h1 : (hd.status == some "winner") = false := by
        simp [hhd]
      have h2 : (hd.userEmail == t) = false := by simp [hh]
      simp [h1, h2, ih htl]

/-! Claim C1: at most one winner-flagged submission per contest. -/

/-- Claim C1 is false on the code: on a contest where alice authored two
submissions and none is flagged, a successful DeclareWinner targeting alice
leaves the contest with two winner-flagged submissions, not at most one. -/
theorem c1_counterexample :
    (declareWinner c1store ownerCaller 1 "alice@x.com").isOk = true ∧
    ((declareWinner c1store ownerCaller 1 "alice@x.com").toOption.bind
      (fun s => (findContest s 1).map winnersCount)) = some 2 := by decide

/-- Claim C1 amended: after a successful DeclareWinner, every winner-flagged
submission of the contest belongs to the target email — at most one distinct
winner user — and the number of flagged submissions equals the number of
submissions the target authored, which exceeds one when the target authored
more than one. -/
theorem c1_amended (s s' : Store) (caller : Caller) (id : Nat) (target : String)
    (c c' : Contest)
    (hc : findContest s id = some c)
    (hrun : declareWinner s caller id target = .ok s')
    (hc' : findContest s' id = some c') :
    (∀ sb ∈ c'.submissions, sb.status = some "winner" → sb.userEmail = target) ∧
    winnersCount c' = (c.submissions.filter (fun sb => sb.userEmail == target)).length := by
  unfold declareWinner at hrun
  by_cases hrole : caller.role = "creator"
  case neg => rw [if_pos hrole] at hrun; exact absurd hrun (by simp)
  rw [if_neg (not_not_intro hrole), hc] at hrun
  by_cases hw : hasWinner c = true
  · simp [hw] at hrun
  · rw [Bool.not_eq_true] at hw
    simp only [hw, Bool.false_eq_true, if_false, Except.ok.injEq] at hrun
    subst hrun
    have hc2 := findContest_setContest
      { c with submissions := winnerFlag target c.submissions } hc
    rw [hc2, Option.some.injEq] at hc'
    subst hc'
    have hno := (hasWinner_false_iff c).mp hw
    refine ⟨winnerFlag_mem_target target c.submissions hno, ?_⟩
    simpa [winnersCount] using winnerFlag_count target c.submissions hno

/-- Claim C1 witness: the amended theorem applied to the concrete two-submission
contest; alice authored two submissions, so two end up flagged. -/
theorem c1_witness : winnersCount c1after = 2 :=
  (c1_amended c1store (setContest c1store 1 c1after) ownerCaller 1 "alice@x.com"
    c1contest c1after (by decide) (by decide) (by decide)).2.trans (by decide)

/-! Claim C2: DeclareWinner and contest ownership. -/

/-- Claim C2 is false on the code: a creator whose email differs from the
contest's creatorEmail does not get Forbidden — the call succeeds and flags
bob's submission, because the route never compares the caller with the owner. -/
theorem c2_counterexample :
    intruderCaller.role = "creator" ∧
    c2contest.creatorEmail ≠ intruderCaller.email ∧
    declareWinner c2store intruderCaller 1 "bob@x.com" = .ok c2after ∧
    (findContest c2after 1).map winnersCount = some 1 := by decide

/-- Claim C2 amended: DeclareWinner is gated only on the creator role. A caller
whose role is not creator fails 403; any caller with role creator — owner or
not, since no ownership comparison is made — succeeds on a present contest with
no prior winner and flags the target's submissions. -/
theorem c2_amended (s : Store) (caller : Caller) (id : Nat) (target : String)
    (c : Contest) :
    (caller.role ≠ "creator" →
      declareWinner s caller id target = .error ⟨403, "Creator only"⟩) ∧
    (caller.role = "creator" → findContest s id = some c → hasWinner c = false →
      declareWinner s caller id target =
        .ok (setContest s id { c with submissions := winnerFlag target c.submissions })) := by
  constructor
  · intro h
    unfold declareWinner
    rw [if_pos h]
  · intro hrole hc hw
    unfold declareWinner
    rw [if_neg (not_not_intro hrole), hc]
    simp [hw]

/-- Claim C2 witness: the amended theorem applied to a creator who does not own
the contest; the call succeeds. -/
theorem c2_witness :
    declareWinner c2store intruderCaller 1 "bob@x.com" =
      .ok (setContest c2store 1
        { c2contest with submissions := winnerFlag "bob@x.com" c2contest.submissions }) :=
  (c2_amended c2store intruderCaller 1 "bob@x.com" c2contest).2 rfl (by decide) (by decide)

/-! Claim C3: terminality of confirmed and rejected. -/

/-- Claim C3 is false on the code: SetStatus by an admin on a contest whose
status is already `confirmed` succeeds and changes the status to `rejected`,
so a set status is not terminal. -/
theorem c3_counterexample :
    c3contest.status = "confirmed" ∧
    setStatus c3store adminCaller 1 "rejected" =
      .ok (setContest c3store 1 { c3contest with status := "rejected" }) ∧
    (findContest (setContest c3store 1 { c3contest with status := "rejected" }) 1).map
      Contest.status = some "rejected" := by decide

/-- Claim C3 amended: SetStatus by an admin with a valid status value overwrites
the contest's status unconditionally, whatever the current status; `confirmed`
and `rejected` are not terminal. -/
theorem c3_amended (s : Store) (caller : Caller) (id : Nat) (st : String)
    (c : Contest)
    (hrole : caller.role = "admin")
    (hst : st = "confirmed" ∨ st = "rejected")
    (hc : findContest s id = some c) :
    setStatus s caller id st = .ok (setContest s id { c with status := st }) ∧
    findContest (setContest s id { c with status := st }) id =
      some { c with status := st } := by
  refine ⟨?_, findContest_setContest _ hc⟩
  unfold setStatus
  rw [if_neg (not_not_intro hrole)]
  have hmem : (["confirmed", "rejected"].contains st) = true := by
    rcases hst with h | h <;> simp [h]
  rw [if_neg (not_not_intro hmem), hc]

/-- Claim C3 witness: the amended theorem applied to the already-confirmed
contest, re-set to rejected. -/
theorem c3_witness :
    setStatus c3store adminCaller 1 "rejected" =
      .ok (setContest c3store 1 { c3contest with status := "rejected" }) :=
  (c3_amended c3store adminCaller 1 "rejected" c3contest rfl (Or.inr rfl) (by decide)).1

/-! Claim C4: a second DeclareWinner after a successful first. -/

/-- Claim C4 is false on the code: a first DeclareWinner whose target authored
no submission succeeds while flagging nothing, and a subsequent DeclareWinner
on the same contest also succeeds instead of failing Conflict. -/
theorem c4_counterexample :
    (declareWinner c4store ownerCaller 1 "ghost@x.com").isOk = true ∧
    ((declareWinner c4store ownerCaller 1 "ghost@x.com").toOption.bind
      (fun s => (declareWinner s ownerCaller 1 "alice@x.com").toOption)).isSome = true := by
  decide

/-- Claim C4 amended: if a first successful DeclareWinner targeted an email
with at least one submission on the contest, then every subsequent
DeclareWinner by a creator on that contest, naming any user, fails Conflict
(400, winner already declared). -/
theorem c4_amended (s s' : Store) (caller caller' : Caller) (id : Nat)
    (target target' : String) (c : Contest)
    (hc : findContest s id = some c)
    (hmatch : (c.submissions.any (fun sb => sb.userEmail == target)) = true)
    (hrun : declareWinner s caller id target = .ok s')
    (hrole : caller'.role = "creator") :
    declareWinner s' caller' id target' =
      .error ⟨400, "Winner already declared"⟩ := by
  unfold declareWinner at hrun
  by_cases hcr : caller.role = "creator"
  case neg => rw [if_pos hcr] at hrun; exact absurd hrun (by simp)
  rw [if_neg (not_not_intro hcr), hc] at hrun
  by_cases hw : hasWinner c = true
  · simp [hw] at hrun
  · rw [Bool.not_eq_true] at hw
    simp only [hw, Bool.false_eq_true, if_false, Except.ok.injEq] at hrun
    subst hrun
    have hc2 := findContest_setContest
      { c with submissions := winnerFlag target c.submissions } hc
    have hwin : hasWinner { c with submissions := winnerFlag target c.submissions } = true :=
      winnerFlag_hasWinner target c.submissions hmatch
    unfold declareWinner
    rw [if_neg (not_not_intro hrole), hc2]
    simp [hwin]

/-- Claim C4 witness: after alice (who has a submission) is declared winner,
a second DeclareWinner naming bob fails Conflict. -/
theorem c4_witness :
    declareWinner c4won ownerCaller 1 "bob@x.com" =
      .error ⟨400, "Winner already declared"⟩ :=
  c4_amended c4store c4won ownerCaller ownerCaller 1 "alice@x.com" "bob@x.com"
    c4contest (by decide) (by decide) (by decide) rfl

/-! Claim C5: creation quota for creators. -/

/-- Claim C5: CreateContest by a creator with a user document fails with a 403
whose message carries the numeric limit exactly when the owned-contest count
has reached the effective quota (default 2); below the quota it succeeds and
the creator's owned-contest count increases by one. -/
theorem c5_quota (s : Store) (caller : Caller) (body : NewContest) (now : Nat)
    (u : User)
    (hrole : caller.role = "creator")
    (hu : s.users.find? (fun v => v.email == caller.email) = some u) :
    (ownedCount s caller.email ≥ effectiveLimit u →
      createContest s caller body now =
        .error ⟨403, quotaMessage (effectiveLimit u)⟩) ∧
    (ownedCount s caller.email < effectiveLimit u →
      (createContest s caller body now).toOption.map
          (fun t => ownedCount t caller.email) =
        some (ownedCount s caller.email + 1)) := by
  constructor
  · intro hge
    unfold createContest
    rw [if_neg (not_not_intro hrole), hu]
    simp [hge]
  · intro hlt
    unfold createContest
    rw [if_neg (not_not_intro hrole), hu]
    have hnge : ¬ (ownedCount s caller.email ≥ effectiveLimit u) := not_le.mpr hlt
    simp only [hnge, if_false, Except.toOption, Option.map_some]
    simp [ownedCount, List.filter_append]

/-- Claim C5 witness: with the default quota 2, owning 2 contests makes
creation fail with the limit spelled out in the message, and owning 1 makes it
succeed, raising the owned count to 2. -/
theorem c5_witness :
    createContest c5full c5creator {} 0 =
      .error ⟨403, "Contest limit reached (2). Please upgrade your package."⟩ ∧
    (createContest c5room c5creator {} 0).toOption.map
        (fun t => ownedCount t "maker@x.com") = some 2 :=
  ⟨(c5_quota c5full c5creator {} 0 c5user rfl (by decide)).1 (by decide),
   (c5_quota c5room c5creator {} 0 c5user rfl (by decide)).2 (by decide)⟩

/-! Claim C6: duplicate registration on one contest. -/

/-- Claim C6: registering an email already in the participant set fails
Conflict and writes nothing; a fresh email is appended; and appending a fresh
email preserves the uniqueness of participant emails. -/
theorem c6_register (s : Store) (caller : Caller) (id : Nat) (c : Contest)
    (hc : findContest s id = some c) :
    (c.participants.contains caller.email = true →
      register s caller id = .error ⟨400, "Already registered"⟩) ∧
    (c.participants.contains caller.email = false →
      register s caller id =
        .ok (setContest s id
          { c with participants := c.participants ++ [caller.email] })) ∧
    (c.participants.contains caller.email = false → c.participants.Nodup →
      (c.participants ++ [caller.email]).Nodup) := by
  refine ⟨?_, ?_, ?_⟩
  · intro hmem
    have hm := List.mem_of_elem_eq_true hmem
    unfold register
    rw [hc]
    simp [hm]
  · intro hmem
    have hm : caller.email ∉ c.participants := fun x => by
      have hx : c.participants.contains caller.email = true :=
        List.elem_eq_true_of_mem x
      rw [hmem] at hx
      exact absurd hx (by simp)
    unfold register
    rw [hc]
    simp [hm]
  · intro hmem hnd
    have hm : caller.email ∉ c.participants := fun x => by
      have hx : c.participants.contains caller.email = true :=
        List.elem_eq_true_of_mem x
      rw [hmem] at hx
      exact absurd hx (by simp)
    simp [List.nodup_append, hnd, hm]

/-- Claim C6 witness: bob, already registered, gets Conflict; appending carol
to the one-element participant set keeps it duplicate-free. -/
theorem c6_witness :
    register c9store { email := "bob@x.com", role := "user" } 1 =
      .error ⟨400, "Already registered"⟩ ∧
    (c9contest.participants ++ ["carol@x.com"]).Nodup :=
  ⟨(c6_register c9store { email := "bob@x.com", role := "user" } 1 c9contest
      (by decide)).1 (by decide),
   (c6_register c9store { email := "carol@x.com", role := "user" } 1 c9contest
      (by decide)).2.2 (by decide) (by decide)⟩

/-! Claim C7: SubmitTask error order and success shape. -/

/-- Claim C7 is false on the code: a non-participant with a valid payload gets
a 400 response (not 403 Forbidden), and with an empty payload the empty-payload
error takes precedence over the non-participant check. -/
theorem c7_counterexample :
    submitTask c4store { email := "carol@x.com", role := "user" } 1 "my work" 99 =
      .error ⟨400, "You are not registered for this contest"⟩ ∧
    submitTask c4store { email := "carol@x.com", role := "user" } 1 "" 99 =
      .error ⟨400, "Submission cannot be empty"⟩ := by decide

/-- Claim C7 amended: SubmitTask fails 400 (empty submission) whenever the
payload is empty — this check runs first, for participants and non-participants
alike; with a non-empty payload it fails 404 if the contest is absent, fails
400 (not 403) with the not-registered message if the caller is not a
participant, and otherwise appends exactly one submission carrying the caller's
email and the current timestamp. -/
theorem c7_amended (s : Store) (caller : Caller) (id : Nat) (payload : String)
    (now : Nat) (c : Contest) :
    (payload = "" →
      submitTask s caller id payload now = .error ⟨400, "Submission cannot be empty"⟩) ∧
    (payload ≠ "" → findContest s id = none →
      submitTask s caller id payload now = .error ⟨404, "Contest not found"⟩) ∧
    (payload ≠ "" → findContest s id = some c →
      c.participants.contains caller.email = false →
      submitTask s caller id payload now =
        .error ⟨400, "You are not registered for this contest"⟩) ∧
    (payload ≠ "" → findContest s id = some c →
      c.participants.contains caller.email = true →
      submitTask s caller id payload now =
        .ok (setContest s id
          { c with submissions := c.submissions ++
              [{ userEmail := caller.email, submission := payload,
                 submittedAt := now }] })) := by
  refine ⟨?_, ?_, ?_, ?_⟩
  · intro hp
    unfold submitTask
    rw [if_pos hp]
  · intro hp hc
    unfold submitTask
    rw [if_neg hp, hc]
  · intro hp hc hmem
    have hm : caller.email ∉ c.participants := fun x => by
      have hx : c.participants.contains caller.email = true :=
        List.elem_eq_true_of_mem x
      rw [hmem] at hx
      exact absurd hx (by simp)
    unfold submitTask
    rw [if_neg hp, hc]
    simp [hm]
  · intro hp hc hmem
    have hm := List.mem_of_elem_eq_true hmem
    unfold submitTask
    rw [if_neg hp, hc]
    simp [hm]

/-- Claim C7 witness: registered participant alice submits a non-empty payload
and exactly one timestamped submission is appended. -/
theorem c7_witness :
    submitTask c4store { email := "alice@x.com", role := "user" } 1 "late entry" 99 =
      .ok (setContest c4store 1
        { c4contest with submissions := c4contest.submissions ++
            [{ userEmail := "alice@x.com", submission := "late entry",
               submittedAt := 99 }] }) :=
  (c7_amended c4store { email := "alice@x.com", role := "user" } 1 "late entry" 99
    c4contest).2.2.2 (by decide) (by decide) (by decide)

/-! Claim C8: EditContest versus UpdateContestFields on a confirmed contest. -/

/-- Claim C8: on a contest the caller owns, EditContest fails Forbidden once
the status is confirmed, while the allow-listed UpdateContestFields succeeds
regardless of status and writes a supplied field such as the title. -/
theorem c8_edit_vs_update (s : Store) (caller : Caller) (id : Nat) (c : Contest)
    (upd : ContestUpdate)
    (hrole : caller.role = "creator")
    (hc : findContest s id = some c)
    (hown : c.creatorEmail = caller.email) :
    (c.status = "confirmed" →
      editContest s caller id upd = .error ⟨403, "Not allowed"⟩) ∧
    updateContest s caller id upd = .ok (setContest s id (applyUpdate c upd)) ∧
    (∀ t, upd.title = some t → (applyUpdate c upd).title = t) := by
  refine ⟨?_, ?_, ?_⟩
  · intro hst
    unfold editContest
    rw [if_neg (not_not_intro hrole), hc]
    have hbad : c.creatorEmail ≠ caller.email ∨ c.status ≠ "pending" :=
      Or.inr (by rw [hst]; decide)
    simp [hbad]
  · unfold updateContest
    rw [if_neg (not_not_intro hrole), hc]
    simp [hown]
  · intro t ht
    simp [applyUpdate, ht]

/-- Claim C8 witness: the owning creator cannot full-edit the confirmed
contest, but the allow-listed update succeeds and writes the new title. -/
theorem c8_witness :
    editContest c8store ownerCaller 1 c8upd = .error ⟨403, "Not allowed"⟩ ∧
    updateContest c8store ownerCaller 1 c8upd =
      .ok (setContest c8store 1 (applyUpdate c8contest c8upd)) ∧
    (applyUpdate c8contest c8upd).title = "New title" := by
  have h := c8_edit_vs_update c8store ownerCaller 1 c8contest c8upd rfl (by decide) rfl
  exact ⟨h.1 rfl, h.2.1, h.2.2 "New title" rfl⟩

/-! Claim C9: registration is not gated by lifecycle state or deadline. -/

/-- Claim C9: Register succeeds and appends any authenticated caller not
already in the participant set; neither the contest status nor the end date is
consulted, so the statement holds for pending, confirmed, rejected and expired
contests alike. -/
theorem c9_register_ungated (s : Store) (caller : Caller) (id : Nat) (c : Contest)
    (hc : findContest s id = some c)
    (hnew : c.participants.contains caller.email = false) :
    register s caller id =
      .ok (setContest s id
        { c with participants := c.participants ++ [caller.email] }) := by
  have hm : caller.email ∉ c.participants := fun x => by
    have hx : c.participants.contains caller.email = true :=
      List.elem_eq_true_of_mem x
    rw [hnew] at hx
    exact absurd hx (by simp)
  unfold register
  rw [hc]
  simp [hm]

/-- Claim C9 witness: carol registers on a rejected contest whose end date has
passed, and is appended to the participant set. -/
theorem c9_witness :
    register c9store { email := "carol@x.com", role := "user" } 1 =
      .ok (setContest c9store 1
        { c9contest with participants := c9contest.participants ++ ["carol@x.com"] }) :=
  c9_register_ungated c9store { email := "carol@x.com", role := "user" } 1 c9contest
    (by decide) (by decide)

/-! Claim C10: DeclareWinner whose target matches no submission. -/

/-- Claim C10: when no submission is flagged and the target email matches no
submission, DeclareWinner reports success while leaving the contest exactly as
it was — no winner is created — and a subsequent DeclareWinner by a creator on
that contest is still permitted (it does not fail Conflict). -/
theorem c10_nomatch (s : Store) (caller : Caller) (id : Nat) (target : String)
    (c : Contest)
    (hrole : caller.role = "creator")
    (hc : findContest s id = some c)
    (hw : hasWinner c = false)
    (hnone : (c.submissions.any (fun sb => sb.userEmail == target)) = false) :
    declareWinner s caller id target = .ok (setContest s id c) ∧
    findContest (setContest s id c) id = some c ∧
    (∀ caller' target', caller'.role = "creator" →
      (declareWinner (setContest s id c) caller' id target').isOk = true) := by
  have hflag : winnerFlag target c.submissions = c.submissions :=
    winnerFlag_nomatch target c.submissions hnone
  have hceq : { c with submissions := winnerFlag target c.submissions } = c := by
    rw [hflag]
  refine ⟨?_, findContest_setContest c hc, ?_⟩
  · unfold declareWinner
    rw [if_neg (not_not_intro hrole), hc]
    simp [hw, hceq]
  · intro caller' target' hr'
    unfold declareWinner
    rw [if_neg (not_not_intro hr'), findContest_setContest c hc]
    simp [hw, Except.isOk, Except.toBool]

/-- Claim C10 witness: declaring the winner for an email with no submission
succeeds and rewrites the contest unchanged. -/
theorem c10_witness :
    declareWinner c4store ownerCaller 1 "ghost@x.com" =
      .ok (setContest c4store 1 c4contest) :=
  (c10_nomatch c4store ownerCaller 1 "ghost@x.com" c4contest rfl (by decide)
    (by decide) (by decide)).1

end ContestHub
